import Mathlib

/-!
Shallow embedding of `src/function_app.py`: an Azure Functions HTTP handler
`get_custom_embedding` that loops over the records of a JSON batch, issues two
upstream embedding calls per record through `requests.post`, and reassembles a
response payload.

Modelling conventions:
* JSON values are the inductive `Json`; numbers are rationals (the upstream
  embedding payload is passed through verbatim, never computed with).
* The upstream collaborator (`requests.post` followed by `response.json()`) is
  an oracle `Provider : Nat → Json → Except String Json`, indexed by the global
  call counter so that call-dependent behaviour is expressible; each issued
  request is recorded in a trace of `HttpCall` values.
* Python exceptions are propagated as the `.exc` outcome of a loop iteration;
  the handler-level `try`/`except` dispatches on it.
* `req.get_json()` is modelled as `Option Json` (`none` = unparseable body).
* A detail of the source that the embedding keeps: the `return` statement at
  lines 88-92 is indented inside the `for` body, and the `except` branch at
  lines 76-82 always raises (see `buildErrMsg`), so no path of the loop body
  reaches the next iteration; the loop therefore examines at most the record
  at index 0, which is what `runLoop` expresses.
* `len(values)` on a value that is not a list is modelled as the `TypeError`
  raised for numbers, booleans and `null`; no claim exercises a string or
  object there.
-/

namespace FunctionApp

/-- JSON values as handled by `json` / `req.get_json()` in the source. -/
inductive Json where
  | null : Json
  | bool : Bool → Json
  | num : ℚ → Json
  | str : String → Json
  | arr : List Json → Json
  | obj : List (String × Json) → Json


/-- Python subscripting `d[k]` on a JSON value: a key lookup that succeeds only
on an object holding the key (`KeyError` / `TypeError` otherwise, modelled as
`none`). -/
def Json.lookup : Json → String → Option Json
  | .obj fields, k => List.lookup k fields
  | _, _ => none

/-- Line 7 of the source. -/
def model_id : String := "sentence-transformers/all-MiniLM-L6-v2"

/-- Line 8 of the source. -/
def hf_token : String := "s"

/-- Line 11 of the source. -/
def api_url : String :=
  "https://api-inference.huggingface.co/pipeline/feature-extraction/" ++ model_id

/-- Line 12 of the source. -/
def headers : List (String × String) := [("Authorization", "Bearer " ++ hf_token)]

/-- One outbound HTTP request issued through `requests.post`. -/
structure HttpCall where
  method : String
  url : String
  hdrs : List (String × String)
  body : Json


/-- The JSON body `{"inputs": text, "options": {"wait_for_model": true}}`
passed as `json=` at lines 44 and 48. -/
def postBody (text : Json) : Json :=
  .obj [("inputs", text), ("options", .obj [("wait_for_model", .bool true)])]

/-- The call `requests.post(api_url, headers=headers, json=...)`. -/
def mkCall (text : Json) : HttpCall :=
  { method := "POST", url := api_url, hdrs := headers, body := postBody text }

/-- Oracle for the upstream service: given the global call counter and the
`inputs` value, either the parsed JSON of the response (`response.json()`) or
an exception raised by `requests.post` / `.json()`. -/
def Provider : Type := Nat → Json → Except String Json

/-- Observable outcome of one invocation of the handler. -/
inductive PyResult where
  /-- `func.HttpResponse(json.dumps(body), status_code)` was returned. -/
  | response : Nat → Json → PyResult
  /-- The function body ended without reaching a `return`: Python returns
  `None`, no HTTP response is produced. -/
  | retNone : PyResult
  /-- An exception escaped the handler. -/
  | raised : String → PyResult


/-- Python evaluation of the expression `"error is"+e` at line 81, where `e`
is the caught exception object: `str.__add__` accepts only `str`, so the
expression raises `TypeError` instead of producing a message. -/
def buildErrMsg (_e : String) : Except String String :=
  .error "TypeError: can only concatenate str (not Exception) to str"

/-- Outcome of executing the body of one `for` iteration (lines 28-92). -/
inductive LoopExit where
  /-- A `return` inside the loop body fired with this result. -/
  | ret : PyResult → LoopExit
  /-- The range was exhausted without a `return`. -/
  | fall : LoopExit
  /-- An exception escaped the loop body to the handler-level `except`. -/
  | exc : String → LoopExit


/-- The `except Exception as e` branch at lines 76-82.  Evaluation order of the
dict literal: `values[i]['recordId']` first (line 80, a missing key raises
`KeyError` inside the `except`, which propagates), then the `"message"` value
`"error is"+e` (line 81), which always raises `TypeError` (`buildErrMsg`); if
it returned a string, the error entry would be appended and lines 85-92 would
return a 200 response.  The assignment at line 78 mutates `values`, which is
never returned, so it has no observable effect. -/
def exceptBranch (e : String) (value : Json) (output : List Json)
    (trace : List HttpCall) : LoopExit × List Json × List HttpCall :=
  match value.lookup "recordId" with
  | none => (.exc "KeyError: recordId", output, trace)
  | some rid =>
    match buildErrMsg e with
    | .error m => (.exc m, output, trace)
    | .ok m =>
      let output1 := output ++
        [Json.obj [("recordID", rid),
                   ("errors", Json.arr [Json.obj [("message", Json.str m)]])]]
      (.ret (.response 200 (Json.obj [("values", Json.arr output1)])), output1, trace)

/-- Body of the `for` iteration at index `i` (lines 28-92), applied to
`value = values[i]`, the current call counter, the accumulated `output` list
and the trace of issued calls.
* Lines 29-30: `value['data']['question']` — a missing key raises outside the
  inner `try`, escaping to the handler-level `except`.  The same text is bound
  to both `input_text_question` and `input_text_answer`.
* Lines 42-58: the inner `try`: two upstream calls, then the append of the
  success entry (`values[i]['recordId']` at line 53 is evaluated inside the
  `try`, so a missing key lands in the `except` branch).
* Lines 76-82: `exceptBranch`.
* Lines 85-92: executed after the `try` statement completes normally — the
  `return` is inside the loop body, so a completed iteration always returns. -/
def loopIter (provider : Provider) (calls : Nat) (value : Json)
    (output : List Json) (trace : List HttpCall) :
    LoopExit × List Json × List HttpCall :=
  match (value.lookup "data").bind (fun d => d.lookup "question") with
  | none => (.exc "KeyError: question", output, trace)
  | some q =>
    let trace1 := trace ++ [mkCall q]
    match provider calls q with
    | .error e => exceptBranch e value output trace1
    | .ok questionvector =>
      let trace2 := trace1 ++ [mkCall q]
      match provider (calls + 1) q with
      | .error e => exceptBranch e value output trace2
      | .ok answervector =>
        match value.lookup "recordId" with
        | none => exceptBranch "KeyError: recordId" value output trace2
        | some rid =>
          let output1 := output ++
            [Json.obj [("recordID", rid),
                       ("data", Json.obj [("answerVector", answervector),
                                          ("questionVector", questionvector)])]]
          (.ret (.response 200 (Json.obj [("values", Json.arr output1)])),
            output1, trace2)

/-- The `for i in range(0, len(values))` loop at lines 27-92, started with
`output = []` (line 24) and an empty trace.  Every path through the loop body
ends in a `return` (line 88) or an exception (lines 76-82 always raise, see
`buildErrMsg`), so control never reaches a second iteration: the loop either
runs zero iterations (empty `values`) and falls through, or executes the body
once on `values[0]`. -/
def runLoop (provider : Provider) (values : List Json) :
    LoopExit × List Json × List HttpCall :=
  match values with
  | [] => (.fall, [], [])
  | v :: _ => loopIter provider 0 v [] []

/-- The handler `get_custom_embedding` (lines 19-99).  `req` is the result of
`req.get_json()` (`none` when the body is unparseable, which raises).
* Lines 22-23: a raised exception before line 24 reaches the handler-level
  `except` with `output` unbound; line 96 then raises `NameError`, so no HTTP
  response is produced.
* Line 24 binds `output = []`, so later exceptions reach line 95 and return a
  401 response carrying the current `output`.
* A `values` entry that is not a list raises `TypeError` in `len(values)`.
* Lines 93-99: the handler-level `except`. -/
def get_custom_embedding (provider : Provider) (req : Option Json) :
    PyResult × List HttpCall :=
  match req with
  | none => (.raised "NameError: name output is not defined", [])
  | some req_body =>
    match req_body.lookup "values" with
    | none => (.raised "NameError: name output is not defined", [])
    | some values_json =>
      match values_json with
      | .arr values =>
        match runLoop provider values with
        | (.ret r, _, trace) => (r, trace)
        | (.fall, _, trace) => (.retNone, trace)
        | (.exc _, output, trace) =>
          (.response 401 (Json.obj [("values", Json.arr output)]), trace)
      | _ => (.response 401 (Json.obj [("values", Json.arr [])]), [])

/-- The list under the `values` key of a JSON object (empty when absent). -/
def jValues (j : Json) : List Json :=
  match j.lookup "values" with
  | some (.arr xs) => xs
  | _ => []

/-- The success entry appended at lines 52-58. -/
def mkSuccessEntry (rid answervector questionvector : Json) : Json :=
  Json.obj [("recordID", rid),
            ("data", Json.obj [("answerVector", answervector),
                               ("questionVector", questionvector)])]

/-- The body of every 401 response the handler can produce. -/
def errBody : Json := Json.obj [("values", Json.arr [])]

/-- A stub embedding `[0.1, 0.2]`, as in the worked example of the spec. -/
def stubVec : Json := Json.arr [Json.num 0.1, Json.num 0.2]

/-- A provider that answers every call with `stubVec`. -/
def stubProvider : Provider := fun _ _ => .ok stubVec

/-- A provider whose every call raises, e.g. an unreachable endpoint. -/
def failProvider : Provider := fun _ _ => .error "ConnectionError"

/-- A well-formed input record. -/
def mkRecord (rid q : String) : Json :=
  Json.obj [("recordId", Json.str rid),
            ("data", Json.obj [("question", Json.str q)])]

/-- The worked example input of the spec. -/
def oneRecordReq : Json := Json.obj [("values", Json.arr [mkRecord "1" "hello"])]

/-- A well-formed two-record batch. -/
def twoRecordReq : Json :=
  Json.obj [("values", Json.arr [mkRecord "1" "hello", mkRecord "2" "world"])]

/-- A well-formed request whose `values` array is empty. -/
def emptyValuesReq : Json := Json.obj [("values", Json.arr [])]

/-- A parseable request body lacking the `values` key. -/
def noValuesReq : Json := Json.obj [("other", Json.null)]

end FunctionApp

namespace FunctionApp

/-- Exhaustive characterization of the handler's observable outcomes: an
escaped `NameError`, a `None` return (empty batch), a 401 response with the
empty `values` body and at most two issued calls, or a 200 response carrying
exactly the success entry built from the first input record. -/
lemma handler_cases (p : Provider) (r : Option Json) :
    (∃ m, get_custom_embedding p r = (.raised m, [])) ∨
    get_custom_embedding p r = (.retNone, []) ∨
    (∃ tr, get_custom_embedding p r = (.response 401 errBody, tr) ∧
      (tr = [] ∨ ∃ q, tr = [mkCall q] ∨ tr = [mkCall q, mkCall q])) ∨
    (∃ body values r0 q rid v1 v2,
      r = some body ∧ body.lookup "values" = some (.arr (r0 :: values)) ∧
      (r0.lookup "data").bind (fun d => d.lookup "question") = some q ∧
      r0.lookup "recordId" = some rid ∧
      p 0 q = .ok v1 ∧ p 1 q = .ok v2 ∧
      get_custom_embedding p r =
        (.response 200 (Json.obj [("values", Json.arr [mkSuccessEntry rid v2 v1])]),
         [mkCall q, mkCall q])) := by
  rcases r with _ | body
  · exact .inl ⟨_, rfl⟩
  rcases hv : body.lookup "values" with _ | vj
  · exact .inl ⟨"NameError: name output is not defined", by simp [get_custom_embedding, hv]⟩
  cases vj with
  | arr values =>
    cases values with
    | nil =>
      right; left
      simp [get_custom_embedding, hv, runLoop]
    | cons r0 rest =>
      rcases hq : (r0.lookup "data").bind (fun d => d.lookup "question") with _ | q
      · right; right; left
        exact ⟨[], by simp [get_custom_embedding, hv, runLoop, loopIter, hq, errBody], .inl rfl⟩
      · rcases h1 : p 0 q with e1 | v1
        · right; right; left
          refine ⟨[mkCall q], ?_, .inr ⟨q, .inl rfl⟩⟩
          rcases hrid : r0.lookup "recordId" with _ | rid <;>
            simp [get_custom_embedding, hv, runLoop, loopIter, hq, h1, exceptBranch,
              hrid, buildErrMsg, errBody]
        · rcases h2 : p 1 q with e2 | v2
          · right; right; left
            refine ⟨[mkCall q, mkCall q], ?_, .inr ⟨q, .inr rfl⟩⟩
            rcases hrid : r0.lookup "recordId" with _ | rid <;>
              simp [get_custom_embedding, hv, runLoop, loopIter, hq, h1, h2,
                exceptBranch, hrid, buildErrMsg, errBody]
          · rcases hrid : r0.lookup "recordId" with _ | rid
            · right; right; left
              refine ⟨[mkCall q, mkCall q], ?_, .inr ⟨q, .inr rfl⟩⟩
              simp [get_custom_embedding, hv, runLoop, loopIter, hq, h1, h2,
                exceptBranch, hrid, buildErrMsg, errBody]
            · right; right; right
              exact ⟨body, rest, r0, q, rid, v1, v2, rfl, hv, hq, hrid, h1, h2,
                by simp [get_custom_embedding, hv, runLoop, loopIter, hq, h1, h2,
                  hrid, mkSuccessEntry]⟩
  | null => exact .inr (.inr (.inl ⟨[], by simp [get_custom_embedding, hv, errBody], .inl rfl⟩))
  | bool b => exact .inr (.inr (.inl ⟨[], by simp [get_custom_embedding, hv, errBody], .inl rfl⟩))
  | num n => exact .inr (.inr (.inl ⟨[], by simp [get_custom_embedding, hv, errBody], .inl rfl⟩))
  | str s => exact .inr (.inr (.inl ⟨[], by simp [get_custom_embedding, hv, errBody], .inl rfl⟩))
  | obj fields => exact .inr (.inr (.inl ⟨[], by simp [get_custom_embedding, hv, errBody], .inl rfl⟩))

end FunctionApp

namespace FunctionApp

/-- Claim C1 (code evidence): with a two-record batch and an always-succeeding
provider, the handler returns a 200 response whose `values` holds a single
entry, because the `return` at line 88 sits inside the `for` body; the claim
requires two entries. -/
theorem C1_return_inside_loop_single_entry :
    (jValues twoRecordReq).length = 2 ∧
    get_custom_embedding stubProvider (some twoRecordReq) =
      (.response 200 (Json.obj [("values",
          Json.arr [mkSuccessEntry (Json.str "1") stubVec stubVec])]),
       [mkCall (Json.str "hello"), mkCall (Json.str "hello")]) ∧
    (jValues (Json.obj [("values",
        Json.arr [mkSuccessEntry (Json.str "1") stubVec stubVec])])).length = 1 :=
  ⟨rfl, rfl, rfl⟩

/-- Claim C2 (code evidence): with a one-record batch whose provider call
raises, the handler returns 401 with an empty `values` list — no `errors`
entry is appended and the status is not 200, because `"error is"+e` at line 81
raises `TypeError` inside the `except` branch. -/
theorem C2_provider_failure_yields_401 :
    get_custom_embedding failProvider (some oneRecordReq) =
      (.response 401 errBody, [mkCall (Json.str "hello")]) ∧
    jValues errBody = [] :=
  ⟨rfl, rfl⟩

/-- Claim C3 (code evidence): on an unparseable body and on a parseable body
lacking the `values` key, the handler raises `NameError` (line 96 references
the unbound `output`) instead of returning a 401 response. -/
theorem C3_parse_failure_raises_NameError :
    get_custom_embedding stubProvider none =
      (.raised "NameError: name output is not defined", []) ∧
    get_custom_embedding stubProvider (some noValuesReq) =
      (.raised "NameError: name output is not defined", []) :=
  ⟨rfl, rfl⟩

/-- Claim C4 (counterexample): in a two-record batch where both records hold a
`data.question` string and the provider answers every call, the output holds a
single entry whose `recordID` is `"1"`; the second record, although it
qualifies, has no output entry, refuting the claim's quantification over every
record. -/
theorem C4_counterexample_second_record_dropped :
    get_custom_embedding stubProvider (some twoRecordReq) =
      (.response 200 (Json.obj [("values",
          Json.arr [mkSuccessEntry (Json.str "1") stubVec stubVec])]),
       [mkCall (Json.str "hello"), mkCall (Json.str "hello")]) ∧
    (jValues (Json.obj [("values",
        Json.arr [mkSuccessEntry (Json.str "1") stubVec stubVec])])).map
      (fun e => e.lookup "recordID") = [some (Json.str "1")] ∧
    Json.str "1" ≠ Json.str "2" :=
  ⟨rfl, rfl, by intro h; injection h with h2; exact absurd h2 (by decide)⟩

/-- Claim C4 (amended): for the first record of the batch — the only record the
handler reaches — with a `data.question` value and a provider answering both
calls, the response is HTTP 200 with body `{"values": [entry]}` where the
entry's `data.questionVector` is the provider's first response verbatim. -/
theorem C4_first_record_verbatim (p : Provider) (body r0 : Json)
    (values : List Json) (q rid v1 v2 : Json)
    (hv : body.lookup "values" = some (.arr (r0 :: values)))
    (hq : (r0.lookup "data").bind (fun d => d.lookup "question") = some q)
    (hrid : r0.lookup "recordId" = some rid)
    (h1 : p 0 q = .ok v1) (h2 : p 1 q = .ok v2) :
    get_custom_embedding p (some body) =
      (.response 200 (Json.obj [("values", Json.arr [mkSuccessEntry rid v2 v1])]),
       [mkCall q, mkCall q]) ∧
    ((mkSuccessEntry rid v2 v1).lookup "data").bind
      (fun d => d.lookup "questionVector") = some v1 := by
  refine ⟨?_, ?_⟩
  · simp [get_custom_embedding, hv, runLoop, loopIter, hq, h1, h2, hrid, mkSuccessEntry]
  · simp [mkSuccessEntry, Json.lookup, List.lookup]

/-- Witness for `C4_first_record_verbatim` at the worked example input. -/
theorem C4_witness :
    get_custom_embedding stubProvider (some oneRecordReq) =
      (.response 200 (Json.obj [("values",
          Json.arr [mkSuccessEntry (Json.str "1") stubVec stubVec])]),
       [mkCall (Json.str "hello"), mkCall (Json.str "hello")]) ∧
    ((mkSuccessEntry (Json.str "1") stubVec stubVec).lookup "data").bind
      (fun d => d.lookup "questionVector") = some stubVec :=
  C4_first_record_verbatim stubProvider oneRecordReq (mkRecord "1" "hello") []
    (Json.str "hello") (Json.str "1") stubVec stubVec rfl rfl rfl rfl rfl

end FunctionApp

namespace FunctionApp

/-- Claim C5: both upstream calls of an iteration carry the same input text
(lines 29-30 bind both variables to `value['data']['question']`): any
two-element trace consists of two identical calls; with a deterministic
provider every returned entry's `questionVector` equals its `answerVector`;
and the worked example input with the `[0.1, 0.2]` stub yields exactly the
entry with `recordID` `"1"` and both vectors equal to the stub response. -/
theorem C5_both_calls_identical_text :
    (∀ (p : Provider) (r : Option Json) (c1 c2 : HttpCall),
        (get_custom_embedding p r).2 = [c1, c2] → c1 = c2) ∧
    (∀ (p : Provider), (∀ n m t, p n t = p m t) →
        ∀ (r : Option Json) (s : Nat) (out : Json) (tr : List HttpCall),
          get_custom_embedding p r = (.response s out, tr) →
          ∀ e ∈ jValues out,
            (e.lookup "data").bind (fun d => d.lookup "questionVector") =
            (e.lookup "data").bind (fun d => d.lookup "answerVector")) ∧
    (get_custom_embedding stubProvider (some oneRecordReq) =
       (.response 200 (Json.obj [("values",
           Json.arr [mkSuccessEntry (Json.str "1") stubVec stubVec])]),
        [mkCall (Json.str "hello"), mkCall (Json.str "hello")]) ∧
     ((mkSuccessEntry (Json.str "1") stubVec stubVec).lookup "data").bind
       (fun d => d.lookup "questionVector") = some stubVec ∧
     ((mkSuccessEntry (Json.str "1") stubVec stubVec).lookup "data").bind
       (fun d => d.lookup "answerVector") = some stubVec) := by
  refine ⟨?_, ?_, rfl, by simp [mkSuccessEntry, Json.lookup, List.lookup],
    by simp [mkSuccessEntry, Json.lookup, List.lookup]⟩
  · intro p r c1 c2 htr
    rcases handler_cases p r with ⟨m, h⟩ | h | ⟨tr, h, htr3⟩ |
      ⟨body, values, r0, q, rid, v1, v2, _, _, _, _, _, _, h⟩
    · rw [h] at htr; simp at htr
    · rw [h] at htr; simp at htr
    · rw [h] at htr; simp at htr
      subst htr
      rcases htr3 with h3 | ⟨q, h3 | h3⟩ <;> simp at h3
      obtain ⟨e1, e2⟩ := h3
      subst e1; subst e2; rfl
    · rw [h] at htr; simp at htr
      obtain ⟨e1, e2⟩ := htr
      subst e1; subst e2; rfl
  · intro p hdet r s out tr h e he
    rcases handler_cases p r with ⟨m, h2⟩ | h2 | ⟨tr2, h2, _⟩ |
      ⟨body, values, r0, q, rid, v1, v2, _, _, _, _, hp1, hp2, h2⟩
    · rw [h2] at h; exact absurd h (by simp)
    · rw [h2] at h; exact absurd h (by simp)
    · rw [h2] at h
      injection h with h3 h4
      injection h3 with hs hout
      subst hout
      simp [jValues, errBody, Json.lookup, List.lookup] at he
    · rw [h2] at h
      injection h with h3 h4
      injection h3 with hs hout
      subst hout
      have hv12 : v1 = v2 := by
        have := hdet 0 1 q
        rw [hp1, hp2] at this
        exact Except.ok.inj this
      simp [jValues, Json.lookup, List.lookup] at he
      subst he
      simp [mkSuccessEntry, Json.lookup, List.lookup, hv12]

/-- Witness for `C5_both_calls_identical_text` applied with the deterministic
stub provider on the worked example: the single returned entry has equal
question and answer vectors. -/
theorem C5_witness :
    ((mkSuccessEntry (Json.str "1") stubVec stubVec).lookup "data").bind
      (fun d => d.lookup "questionVector") =
    ((mkSuccessEntry (Json.str "1") stubVec stubVec).lookup "data").bind
      (fun d => d.lookup "answerVector") :=
  C5_both_calls_identical_text.2.1 stubProvider (fun _ _ _ => rfl)
    (some oneRecordReq) 200
    (Json.obj [("values", Json.arr [mkSuccessEntry (Json.str "1") stubVec stubVec])])
    [mkCall (Json.str "hello"), mkCall (Json.str "hello")] rfl
    (mkSuccessEntry (Json.str "1") stubVec stubVec)
    (by simp [jValues, Json.lookup, List.lookup])

end FunctionApp

namespace FunctionApp

/-- Claim C6: in every HTTP response the handler produces, the `j`-th output
entry's `recordID` equals the `j`-th input record's `recordId`: the entries
that exist correspond positionally to the input records. -/
theorem C6_output_order_matches_input (p : Provider) (body : Json) (s : Nat)
    (out : Json) (tr : List HttpCall)
    (h : get_custom_embedding p (some body) = (.response s out, tr))
    (j : Nat) (hj : j < (jValues out).length) :
    ((jValues out).get? j).bind (fun e => e.lookup "recordID") =
    ((jValues body).get? j).bind (fun v => v.lookup "recordId") := by
  rcases handler_cases p (some body) with ⟨m, h2⟩ | h2 | ⟨tr2, h2, _⟩ |
    ⟨body2, values, r0, q, rid, v1, v2, hb, hv, hq, hrid, hp1, hp2, h2⟩
  · rw [h2] at h; exact absurd h (by simp)
  · rw [h2] at h; exact absurd h (by simp)
  · rw [h2] at h
    injection h with h3 h4
    injection h3 with hs hout
    subst hout
    simp [jValues, errBody, Json.lookup, List.lookup] at hj
  · injection hb with hb2
    subst hb2
    rw [h2] at h
    injection h with h3 h4
    injection h3 with hs hout
    subst hout
    have hj0 : j = 0 := by
      simpa [jValues, Json.lookup, List.lookup, Nat.lt_one_iff] using hj
    subst hj0
    simp only [jValues, hv]
    simp [Json.lookup, List.lookup, mkSuccessEntry]
    exact hrid.symm

/-- Witness for `C6_output_order_matches_input` at the worked example. -/
theorem C6_witness :
    ((jValues (Json.obj [("values",
        Json.arr [mkSuccessEntry (Json.str "1") stubVec stubVec])])).get? 0).bind
      (fun e => e.lookup "recordID") =
    ((jValues oneRecordReq).get? 0).bind (fun v => v.lookup "recordId") :=
  C6_output_order_matches_input stubProvider oneRecordReq 200
    (Json.obj [("values", Json.arr [mkSuccessEntry (Json.str "1") stubVec stubVec])])
    [mkCall (Json.str "hello"), mkCall (Json.str "hello")] rfl 0 (by decide)

/-- Claim C7: every entry of a returned body carries either a `data` payload
or an `errors` list, never both: in fact each such entry carries `data` and no
`errors` key. -/
theorem C7_entry_data_xor_errors (p : Provider) (r : Option Json) (s : Nat)
    (out : Json) (tr : List HttpCall)
    (h : get_custom_embedding p r = (.response s out, tr))
    (e : Json) (he : e ∈ jValues out) :
    ((e.lookup "data").isSome ∧ e.lookup "errors" = none) ∨
    ((e.lookup "errors").isSome ∧ e.lookup "data" = none) := by
  rcases handler_cases p r with ⟨m, h2⟩ | h2 | ⟨tr2, h2, _⟩ |
    ⟨body, values, r0, q, rid, v1, v2, hb, hv, hq, hrid, hp1, hp2, h2⟩
  · rw [h2] at h; exact absurd h (by simp)
  · rw [h2] at h; exact absurd h (by simp)
  · rw [h2] at h
    injection h with h3 h4
    injection h3 with hs hout
    subst hout
    simp [jValues, errBody, Json.lookup, List.lookup] at he
  · rw [h2] at h
    injection h with h3 h4
    injection h3 with hs hout
    subst hout
    simp [jValues, Json.lookup, List.lookup] at he
    subst he
    left
    constructor
    · simp [mkSuccessEntry, Json.lookup, List.lookup]
    · simp [mkSuccessEntry, Json.lookup, List.lookup]

/-- Witness for `C7_entry_data_xor_errors` at the worked example entry. -/
theorem C7_witness :
    (((mkSuccessEntry (Json.str "1") stubVec stubVec).lookup "data").isSome ∧
      (mkSuccessEntry (Json.str "1") stubVec stubVec).lookup "errors" = none) ∨
    (((mkSuccessEntry (Json.str "1") stubVec stubVec).lookup "errors").isSome ∧
      (mkSuccessEntry (Json.str "1") stubVec stubVec).lookup "data" = none) :=
  C7_entry_data_xor_errors stubProvider (some oneRecordReq) 200
    (Json.obj [("values", Json.arr [mkSuccessEntry (Json.str "1") stubVec stubVec])])
    [mkCall (Json.str "hello"), mkCall (Json.str "hello")] rfl
    (mkSuccessEntry (Json.str "1") stubVec stubVec)
    (by simp [jValues, Json.lookup, List.lookup])

end FunctionApp

namespace FunctionApp

/-- Claim C8 (counterexample): on a two-record batch with an always-succeeding
provider, the handler issues two calls in total — both for the first record —
not the four (one per record per field) the claim requires; the second record
receives zero attempts. -/
theorem C8_counterexample_missing_attempts :
    (get_custom_embedding stubProvider (some twoRecordReq)).2 =
      [mkCall (Json.str "hello"), mkCall (Json.str "hello")] ∧
    (jValues twoRecordReq).length = 2 ∧
    (get_custom_embedding stubProvider (some twoRecordReq)).2.length ≠
      2 * (jValues twoRecordReq).length :=
  ⟨rfl, rfl, by decide⟩

/-- Claim C8 (amended): every upstream call the handler issues is a POST to
`api_url` with the `Authorization: Bearer` header and the
`{"inputs": ..., "options": {"wait_for_model": true}}` body, and at most two
calls are issued in total — one attempt per field for the first record, none
for later records; no retry takes place. -/
theorem C8_calls_shape (p : Provider) (r : Option Json) (c : HttpCall)
    (hc : c ∈ (get_custom_embedding p r).2) :
    (c.method = "POST" ∧ c.url = api_url ∧ c.hdrs = headers ∧
      ∃ q, c.body = Json.obj [("inputs", q),
        ("options", Json.obj [("wait_for_model", Json.bool true)])]) ∧
    (get_custom_embedding p r).2.length ≤ 2 := by
  have hshape : (get_custom_embedding p r).2 = [] ∨
      (∃ q, (get_custom_embedding p r).2 = [mkCall q]) ∨
      (∃ q, (get_custom_embedding p r).2 = [mkCall q, mkCall q]) := by
    rcases handler_cases p r with ⟨m, h2⟩ | h2 | ⟨tr2, h2, htr⟩ |
      ⟨body, values, r0, q, rid, v1, v2, hb, hv, hq, hrid, hp1, hp2, h2⟩
    · rw [h2]; exact .inl rfl
    · rw [h2]; exact .inl rfl
    · rw [h2]
      rcases htr with h3 | ⟨q, h3 | h3⟩
      · exact .inl (by rw [h3])
      · exact .inr (.inl ⟨q, by rw [h3]⟩)
      · exact .inr (.inr ⟨q, by rw [h3]⟩)
    · rw [h2]; exact .inr (.inr ⟨q, rfl⟩)
  rcases hshape with h3 | ⟨q, h3⟩ | ⟨q, h3⟩ <;> rw [h3] at hc ⊢
  · simp at hc
  · simp at hc
    subst hc
    exact ⟨⟨rfl, rfl, rfl, q, rfl⟩, by simp⟩
  · simp at hc
    subst hc
    exact ⟨⟨rfl, rfl, rfl, q, rfl⟩, by simp⟩

/-- Witness for `C8_calls_shape` at the single call issued for a failing
provider on the worked example input. -/
theorem C8_witness :
    ((mkCall (Json.str "hello")).method = "POST" ∧
      (mkCall (Json.str "hello")).url = api_url ∧
      (mkCall (Json.str "hello")).hdrs = headers ∧
      ∃ q, (mkCall (Json.str "hello")).body = Json.obj [("inputs", q),
        ("options", Json.obj [("wait_for_model", Json.bool true)])]) ∧
    (get_custom_embedding failProvider (some oneRecordReq)).2.length ≤ 2 :=
  C8_calls_shape failProvider (some oneRecordReq) (mkCall (Json.str "hello"))
    (List.Mem.head _)

/-- Claim C9: a well-formed request with an empty `values` array drives zero
loop iterations, and since the only `return` statements of the `try` block sit
inside the loop body, the function falls off the end and returns `None`: no
HTTP response is produced and no upstream call is issued. -/
theorem C9_empty_batch_returns_none (p : Provider) :
    get_custom_embedding p (some emptyValuesReq) = (.retNone, []) := rfl

/-- Witness for `C9_empty_batch_returns_none` at the stub provider. -/
theorem C9_witness :
    get_custom_embedding stubProvider (some emptyValuesReq) = (.retNone, []) :=
  C9_empty_batch_returns_none stubProvider

/-- Claim C10: the `except` branch of the record loop always raises — for any
caught exception and any current state it propagates an exception and leaves
`output` and the trace unchanged, so the error-entry append at lines 79-82 is
unreachable; consequently no returned body ever holds an `errors` entry, and a
failing provider call lands in the handler-level `except`, which returns 401
with the empty `values` list. -/
theorem C10_except_branch_always_raises :
    (∀ (e : String) (value : Json) (output : List Json) (trace : List HttpCall),
        ∃ m, exceptBranch e value output trace = (.exc m, output, trace)) ∧
    (∀ (p : Provider) (r : Option Json) (s : Nat) (out : Json) (tr : List HttpCall),
        get_custom_embedding p r = (.response s out, tr) →
        ∀ e ∈ jValues out, e.lookup "errors" = none) ∧
    get_custom_embedding failProvider (some oneRecordReq) =
      (.response 401 errBody, [mkCall (Json.str "hello")]) := by
  refine ⟨?_, ?_, rfl⟩
  · intro e value output trace
    rcases hrid : value.lookup "recordId" with _ | rid
    · exact ⟨"KeyError: recordId", by simp [exceptBranch, hrid]⟩
    · exact ⟨"TypeError: can only concatenate str (not Exception) to str",
        by simp [exceptBranch, hrid, buildErrMsg]⟩
  · intro p r s out tr h e he
    rcases handler_cases p r with ⟨m, h2⟩ | h2 | ⟨tr2, h2, _⟩ |
      ⟨body, values, r0, q, rid, v1, v2, hb, hv, hq, hrid, hp1, hp2, h2⟩
    · rw [h2] at h; exact absurd h (by simp)
    · rw [h2] at h; exact absurd h (by simp)
    · rw [h2] at h
      injection h with h3 h4
      injection h3 with hs hout
      subst hout
      simp [jValues, errBody, Json.lookup, List.lookup] at he
    · rw [h2] at h
      injection h with h3 h4
      injection h3 with hs hout
      subst hout
      simp [jValues, Json.lookup, List.lookup] at he
      subst he
      simp [mkSuccessEntry, Json.lookup, List.lookup]

/-- Witness for `C10_except_branch_always_raises`: the caught exception of a
failing call leaves the accumulated output untouched, and the worked example
entry has no `errors` key. -/
theorem C10_witness :
    (∃ m, exceptBranch "ConnectionError" (mkRecord "1" "hello") []
        [mkCall (Json.str "hello")] =
      (.exc m, [], [mkCall (Json.str "hello")])) ∧
    (mkSuccessEntry (Json.str "1") stubVec stubVec).lookup "errors" = none :=
  ⟨C10_except_branch_always_raises.1 "ConnectionError" (mkRecord "1" "hello") []
      [mkCall (Json.str "hello")],
   C10_except_branch_always_raises.2.1 stubProvider (some oneRecordReq) 200
    (Json.obj [("values", Json.arr [mkSuccessEntry (Json.str "1") stubVec stubVec])])
    [mkCall (Json.str "hello"), mkCall (Json.str "hello")] rfl
    (mkSuccessEntry (Json.str "1") stubVec stubVec)
    (by simp [jValues, Json.lookup, List.lookup])⟩

end FunctionApp
